import Mathlib

/-!
Shallow embedding of the chat-web server (anurag5152/chat-web).

The embedding follows `src/server.js` (the variant whose routes check the
already-friends state, i.e. the handlers at the cited claim line ranges),
`src/migrate.js` (table shapes) and the transactional `removeFriend` helper
of `database.js`.  SQLite tables become Lean lists of rows; each SQL
statement is one atomic step on the state, matching SQLite's per-statement
atomicity.  The ISO-8601 `timestamp` strings (which sort chronologically
under `ORDER BY timestamp ASC`) are modelled as naturals ordered by `≤`.
`uuidv4()` and `new Date()` are modelled as explicit parameters supplied at
each call (`freshId`, `now`); an `INSERT` into `messages` fails exactly when
its `id TEXT PRIMARY KEY` is already present.
-/

namespace ChatWeb

/-- Row of the `users` table (`migrate.js`): id, name, email.  The password
column is never consulted by the social-graph or messaging paths modelled
here, so it is omitted. -/
structure User where
  id : Nat
  name : String
  email : String
deriving Repr, DecidableEq

/-- Row of the `friend_requests` table (`migrate.js`): autoincrement id,
sender, receiver and a free-form TEXT status; the server only ever writes
the strings "pending", "accepted" and "rejected". -/
structure FriendRequest where
  id : Nat
  sender_id : Nat
  receiver_id : Nat
  status : String
deriving Repr, DecidableEq

/-- Row of the `messages` table (`migrate.js`): TEXT primary-key id
(server-generated `uuidv4()`), sender, receiver, content, timestamp. -/
structure Message where
  id : String
  sender_id : Nat
  receiver_id : Nat
  content : String
  timestamp : Nat
deriving Repr, DecidableEq

/-- State of `chat.db`: the `friends` table (directed rows), the
`friend_requests` table, the `messages` table, plus the next value of the
`friend_requests` AUTOINCREMENT counter (what `this.lastID` returns after an
insert). -/
structure ChatDb where
  friends : List (Nat × Nat)
  friend_requests : List FriendRequest
  messages : List Message
  nextRequestId : Nat
deriving Repr, DecidableEq

/-- The in-memory `userSockets` object of `server.js`: a map from userId to
a single socket id, represented as an association list where the most recent
assignment is at the head. -/
abbrev UserSockets := List (Nat × String)

/-- JS property read `userSockets[u]`. -/
def socketsGet (m : UserSockets) (u : Nat) : Option String :=
  (m.find? (fun p => p.fst == u)).map Prod.snd

/-- JS property write `userSockets[userId] = socket.id` performed by the
`io.on('connection')` handler for an authenticated socket: it overwrites any
previous binding for that user. -/
def bindSocket (m : UserSockets) (userId : Nat) (socketId : String) : UserSockets :=
  (userId, socketId) :: m.filter (fun p => p.fst != userId)

/-- The `disconnect` handler: delete the first map entry whose value is this
socket's id (the JS `for ... in` loop with `break`). -/
def unbindSocket (m : UserSockets) (socketId : String) : UserSockets :=
  m.eraseP (fun p => p.snd == socketId)

/-- The set of live connections an event addressed to `u` can reach: the
single socket stored under `u`, if any (`io.to(userSockets[u])`). -/
def connectionsFor (m : UserSockets) (u : Nat) : List String :=
  match socketsGet m u with
  | none => []
  | some sid => [sid]

/-- `SELECT id FROM users WHERE email = ?` (resolution step of
`POST /api/friend-request`). -/
def findUserByEmail (users : List User) (email : String) : Option User :=
  users.find? (fun u => u.email == email)

/-- `SELECT * FROM friends WHERE user_id = ? AND friend_id = ?` — the
directed already-friends probe used by `POST /api/friend-request` and
`POST /api/friend-request/accept`. -/
def friendRowExists (st : ChatDb) (userId friendId : Nat) : Bool :=
  st.friends.any (fun p => p.fst == userId && p.snd == friendId)

/-- Outcome of `POST /api/friend-request`. -/
inductive ReqFriendResult
  | notFound
  | alreadyFriends
  | sent (requestId : Nat)
deriving Repr, DecidableEq

/-- The already-friends check step of `POST /api/friend-request` (a separate
`chatDb.get` callback, issued before — and not in a transaction with — the
insert). -/
def requestFriendCheck (st : ChatDb) (senderId receiverId : Nat) : Bool :=
  friendRowExists st senderId receiverId

/-- The insert step of `POST /api/friend-request`:
`INSERT INTO friend_requests (sender_id, receiver_id, status) VALUES (?, ?, 'pending')`;
returns the new state and `this.lastID`. -/
def requestFriendInsert (st : ChatDb) (senderId receiverId : Nat) : ChatDb × Nat :=
  let rid := st.nextRequestId
  ({ st with
      friend_requests := st.friend_requests ++ [⟨rid, senderId, receiverId, "pending"⟩],
      nextRequestId := rid + 1 }, rid)

/-- `POST /api/friend-request` run without interleaving: resolve the email,
probe the `friends` table, and insert a pending row if the probe is empty. -/
def requestFriend (users : List User) (st : ChatDb) (senderId : Nat) (email : String) :
    ReqFriendResult × ChatDb :=
  match findUserByEmail users email with
  | none => (.notFound, st)
  | some receiver =>
    if requestFriendCheck st senderId receiver.id then
      (.alreadyFriends, st)
    else
      let (st', rid) := requestFriendInsert st senderId receiver.id
      (.sent rid, st')

/-- Outcome of `POST /api/friend-request/accept`. -/
inductive AcceptResult
  | notFound
  | acceptedAlreadyFriends
  | accepted
deriving Repr, DecidableEq

/-- `UPDATE friend_requests SET status = ? WHERE id = ?`. -/
def setRequestStatus (reqs : List FriendRequest) (rid : Nat) (s : String) :
    List FriendRequest :=
  reqs.map (fun r => if r.id == rid then { r with status := s } else r)

/-- `POST /api/friend-request/accept`: look the request up by
`id = ? AND receiver_id = ?` (no status condition), then either just mark it
accepted (already-friends branch) or mark it accepted and insert both
directed friendship rows in one `INSERT ... VALUES (?, ?), (?, ?)`. -/
def acceptRequest (st : ChatDb) (userId requestId : Nat) : AcceptResult × ChatDb :=
  match st.friend_requests.find? (fun r => r.id == requestId && r.receiver_id == userId) with
  | none => (.notFound, st)
  | some request =>
    let senderId := request.sender_id
    if friendRowExists st userId senderId then
      (.acceptedAlreadyFriends,
        { st with friend_requests := setRequestStatus st.friend_requests requestId "accepted" })
    else
      let st1 := { st with friend_requests := setRequestStatus st.friend_requests requestId "accepted" }
      (.accepted,
        { st1 with friends := st1.friends ++ [(userId, senderId), (senderId, userId)] })

/-- `POST /api/friend-request/reject`:
`UPDATE friend_requests SET status = "rejected" WHERE id = ? AND receiver_id = ?`
(no status condition); 404 when `this.changes === 0`.  The Bool is `true`
for the 200 response, `false` for the 404. -/
def rejectRequest (st : ChatDb) (userId requestId : Nat) : Bool × ChatDb :=
  let changes := st.friend_requests.countP
    (fun r => r.id == requestId && r.receiver_id == userId)
  if changes == 0 then (false, st)
  else (true,
    { st with friend_requests :=
        st.friend_requests.map (fun r =>
          if r.id == requestId && r.receiver_id == userId then
            { r with status := "rejected" }
          else r) })

/-- The `removeFriend` helper of `database.js`: inside one transaction,
`DELETE FROM friends WHERE (user_id = ? AND friend_id = ?) OR (user_id = ? AND friend_id = ?)`,
returning `this.changes` (the number of deleted rows). -/
def removeFriendRows (st : ChatDb) (userId friendId : Nat) : ChatDb × Nat :=
  let hit : Nat × Nat → Bool := fun p =>
    (p.fst == userId && p.snd == friendId) || (p.fst == friendId && p.snd == userId)
  let deleted := st.friends.countP hit
  ({ st with friends := st.friends.filter (fun p => !(hit p)) }, deleted)

/-- Outcome of `POST /api/friends/remove`. -/
inductive RemoveResult
  | notFound
  | removed
deriving Repr, DecidableEq

/-- `POST /api/friends/remove`: call `removeFriend`; 404 when it deleted
zero rows; otherwise best-effort delete the pair's messages and respond
200. -/
def removeFriendApi (st : ChatDb) (userId friendId : Nat) : RemoveResult × ChatDb :=
  let (st1, deleted) := removeFriendRows st userId friendId
  if deleted == 0 then (.notFound, st1)
  else
    (.removed,
      { st1 with messages := st1.messages.filter (fun m =>
          !((m.sender_id == userId && m.receiver_id == friendId) ||
            (m.sender_id == friendId && m.receiver_id == userId))) })

/-- The payload the client emits on `private_message`
(`handleSendMessage` in `chatpage.js`): a client-generated uuid, the text,
and the target user id (the payload field is called `to`; Lean reserves that
name, so the field is `toId` here). -/
structure MessageData where
  id : String
  content : String
  toId : Nat
deriving Repr, DecidableEq

/-- What the server passes to the socket.io acknowledgment callback. -/
inductive SendAck
  | errorNotAuthenticated
  | errorSaveFailed
  | ok (m : Message)
deriving Repr, DecidableEq

/-- Result of one `private_message` submission: the ack sent to the sender,
the resulting database state, and the emission to the receiver's socket (if
any). -/
structure SendOutcome where
  ack : SendAck
  st : ChatDb
  emitted : Option (String × Message)
deriving Repr, DecidableEq

/-- The `socket.on('private_message')` handler: reject when the socket has
no session userId; otherwise build the row with a fresh server-side
`uuidv4()` (the client-sent `messageData.id` is never read) and
`INSERT INTO messages ...`.  The insert fails exactly when `freshId`
collides with an existing primary key; on failure the sender is acked with
an error and nothing is emitted.  On success the row is emitted to
`userSockets[to]` when present and the sender is acked with the saved
message either way. -/
def privateMessage (st : ChatDb) (sockets : UserSockets)
    (sessionUserId : Option Nat) (messageData : MessageData)
    (freshId : String) (now : Nat) : SendOutcome :=
  match sessionUserId with
  | none => ⟨.errorNotAuthenticated, st, none⟩
  | some fromId =>
    let message : Message := ⟨freshId, fromId, messageData.toId, messageData.content, now⟩
    if st.messages.any (fun m => m.id == freshId) then
      ⟨.errorSaveFailed, st, none⟩
    else
      ⟨.ok message,
        { st with messages := st.messages ++ [message] },
        (socketsGet sockets messageData.toId).map (fun sid => (sid, message))⟩

/-- `GET /api/messages/:friendId`: both directions between the pair,
`ORDER BY timestamp ASC` (stable, so ties keep insertion order). -/
def messagesBetween (st : ChatDb) (userId friendId : Nat) : List Message :=
  (st.messages.filter (fun m =>
      (m.sender_id == userId && m.receiver_id == friendId) ||
      (m.sender_id == friendId && m.receiver_id == userId))).mergeSort
    (fun a b => a.timestamp ≤ b.timestamp)

/-- One server-side operation on the chat database, covering every handler
of `server.js` that touches `chat.db`. -/
inductive Step (users : List User) : ChatDb → ChatDb → Prop
  | requestFriend (senderId : Nat) (email : String) (st : ChatDb) :
      Step users st (requestFriend users st senderId email).2
  | acceptRequest (userId requestId : Nat) (st : ChatDb) :
      Step users st (acceptRequest st userId requestId).2
  | rejectRequest (userId requestId : Nat) (st : ChatDb) :
      Step users st (rejectRequest st userId requestId).2
  | removeFriend (userId friendId : Nat) (st : ChatDb) :
      Step users st (removeFriendApi st userId friendId).2
  | privateMessage (sockets : UserSockets) (sess : Option Nat) (md : MessageData)
      (freshId : String) (now : Nat) (st : ChatDb) :
      Step users st (privateMessage st sockets sess md freshId now).st

/-- Symmetry of the directed `friends` rows: `(a,b)` present iff `(b,a)`
present. -/
def FriendsSymm (st : ChatDb) : Prop :=
  ∀ a b : Nat, (a, b) ∈ st.friends ↔ (b, a) ∈ st.friends

/-- Number of pending friend-request rows for an ordered sender/receiver
pair. -/
def pendingCount (st : ChatDb) (a b : Nat) : Nat :=
  st.friend_requests.countP
    (fun r => r.sender_id == a && r.receiver_id == b && r.status == "pending")

/-- Concrete two-row `users` table used by the concrete instances below. -/
def usersAB : List User := [⟨1, "a", "a@x.com"⟩, ⟨2, "b", "b@x.com"⟩]

/-! Helper lemmas. -/

theorem friendsSymm_of_eq {st st' : ChatDb} (h : st'.friends = st.friends)
    (hs : FriendsSymm st) : FriendsSymm st' := by
  intro a b
  rw [h]
  exact hs a b

theorem symm_append_pair {l : List (Nat × Nat)}
    (h : ∀ a b : Nat, (a, b) ∈ l ↔ (b, a) ∈ l) (u v : Nat) :
    ∀ a b : Nat, (a, b) ∈ l ++ [(u, v), (v, u)] ↔ (b, a) ∈ l ++ [(u, v), (v, u)] := by
  intro a b
  simp only [List.mem_append, List.mem_cons, List.not_mem_nil, or_false, Prod.mk.injEq]
  rw [h a b]
  tauto

theorem hit_swap (u v a b : Nat) :
    ((a == u && b == v) || (a == v && b == u)) = ((b == u && a == v) || (b == v && a == u)) := by
  rw [Bool.or_comm, Bool.and_comm, Bool.and_comm (a == u) (b == v)]

theorem symm_filter_pair {l : List (Nat × Nat)}
    (h : ∀ a b : Nat, (a, b) ∈ l ↔ (b, a) ∈ l) (u v : Nat) :
    ∀ a b : Nat,
      (a, b) ∈ l.filter (fun p => !((p.fst == u && p.snd == v) || (p.fst == v && p.snd == u))) ↔
      (b, a) ∈ l.filter (fun p => !((p.fst == u && p.snd == v) || (p.fst == v && p.snd == u))) := by
  intro a b
  simp only [List.mem_filter]
  rw [h a b]
  constructor <;> rintro ⟨h1, h2⟩ <;> refine ⟨h1, ?_⟩
  · rw [← hit_swap u v a b]
    exact h2
  · rw [hit_swap u v a b]
    exact h2

theorem any_filter_of_imp {α : Type} (l : List α) (c d : α → Bool)
    (h : ∀ x, d x = true → c x = true) :
    (l.filter (fun x => !(c x))).any d = false := by
  rw [List.any_eq_false]
  intro x hx
  rw [List.mem_filter] at hx
  intro hd
  have hc := h x hd
  rw [hc] at hx
  simp at hx

theorem countP_filter_self {α : Type} (l : List α) (c : α → Bool) :
    (l.filter (fun x => !(c x))).countP c = 0 := by
  rw [List.countP_filter]
  simp [Bool.and_not_self]

theorem mem_messagesBetween {st : ChatDb} {m : Message} {a b : Nat} :
    m ∈ messagesBetween st a b ↔
      m ∈ st.messages ∧
      ((m.sender_id == a && m.receiver_id == b) ||
       (m.sender_id == b && m.receiver_id == a)) = true := by
  simp [messagesBetween, List.mem_mergeSort, List.mem_filter]

theorem setRequestStatus_status {reqs : List FriendRequest} {rid : Nat} {s : String}
    {r' : FriendRequest} (h : r' ∈ setRequestStatus reqs rid s) (hid : r'.id = rid) :
    r'.status = s := by
  simp only [setRequestStatus] at h
  rcases List.mem_map.mp h with ⟨r0, _, heq⟩
  by_cases hc : (r0.id == rid) = true
  · rw [if_pos hc] at heq
    rw [← heq]
  · rw [if_neg hc] at heq
    rw [← heq] at hid
    exact absurd (by simp [hid]) hc

theorem requestFriend_friends (users : List User) (st : ChatDb) (s : Nat) (e : String) :
    ((requestFriend users st s e).2).friends = st.friends := by
  rcases hfind : findUserByEmail users e with _ | r
  · simp [requestFriend, hfind]
  · by_cases hc : requestFriendCheck st s r.id
    · simp [requestFriend, hfind, hc]
    · simp [requestFriend, requestFriendInsert, hfind, hc]

theorem rejectRequest_friends (st : ChatDb) (u rid : Nat) :
    ((rejectRequest st u rid).2).friends = st.friends := by
  by_cases hz :
      (st.friend_requests.countP (fun r => r.id == rid && r.receiver_id == u)) = 0 <;>
    simp [rejectRequest, hz]

theorem privateMessage_friends (st : ChatDb) (sockets : UserSockets) (sess : Option Nat)
    (md : MessageData) (fid : String) (now : Nat) :
    ((privateMessage st sockets sess md fid now).st).friends = st.friends := by
  rcases sess with _ | u
  · simp [privateMessage]
  · by_cases hc : (st.messages.any (fun m => m.id == fid)) = true <;>
      simp [privateMessage, hc]

theorem acceptRequest_preserves_symm (st : ChatDb) (u rid : Nat) (hs : FriendsSymm st) :
    FriendsSymm ((acceptRequest st u rid).2) := by
  rcases hfind : st.friend_requests.find? (fun r => r.id == rid && r.receiver_id == u)
    with _ | request
  · exact friendsSymm_of_eq (by simp [acceptRequest, hfind]) hs
  · by_cases hc : friendRowExists st u request.sender_id
    · exact friendsSymm_of_eq (by simp [acceptRequest, hfind, hc]) hs
    · intro a b
      have hfr : ((acceptRequest st u rid).2).friends =
          st.friends ++ [(u, request.sender_id), (request.sender_id, u)] := by
        simp [acceptRequest, hfind, hc]
      rw [hfr]
      exact symm_append_pair hs u request.sender_id a b

theorem removeFriendApi_friends (st : ChatDb) (u f : Nat) :
    ((removeFriendApi st u f).2).friends =
      st.friends.filter
        (fun p => !((p.fst == u && p.snd == f) || (p.fst == f && p.snd == u))) := by
  by_cases hz :
      (st.friends.countP
        (fun p => (p.fst == u && p.snd == f) || (p.fst == f && p.snd == u))) = 0 <;>
    simp [removeFriendApi, removeFriendRows, hz]

theorem removeFriendApi_notFound (st : ChatDb) (u f : Nat)
    (hz : (st.friends.countP
      (fun p => (p.fst == u && p.snd == f) || (p.fst == f && p.snd == u))) = 0) :
    (removeFriendApi st u f).1 = .notFound := by
  simp [removeFriendApi, removeFriendRows, hz]

theorem removeFriendApi_preserves_symm (st : ChatDb) (u f : Nat) (hs : FriendsSymm st) :
    FriendsSymm ((removeFriendApi st u f).2) := by
  intro a b
  rw [removeFriendApi_friends st u f]
  exact symm_filter_pair hs u f a b

/-! Claim theorems. -/

/-- C1 (counterexample): message submission is not idempotent on the
caller-supplied correlation id.  On an empty database, an authenticated
sender (user 1) submits `{id:"m1", content:"hi", to:2}` twice; the server
persists a row on each submission (two rows total), no persisted row is
keyed by the caller's "m1", and the two acknowledgments differ. -/
theorem C1_counterexample :
    (privateMessage ⟨[], [], [], 1⟩ [] (some 1) ⟨"m1", "hi", 2⟩ "srv-1" 0).st.messages.length = 1 ∧
    (privateMessage (privateMessage ⟨[], [], [], 1⟩ [] (some 1) ⟨"m1", "hi", 2⟩ "srv-1" 0).st
        [] (some 1) ⟨"m1", "hi", 2⟩ "srv-2" 1).st.messages.length = 2 ∧
    (∀ m ∈ (privateMessage (privateMessage ⟨[], [], [], 1⟩ [] (some 1) ⟨"m1", "hi", 2⟩ "srv-1" 0).st
        [] (some 1) ⟨"m1", "hi", 2⟩ "srv-2" 1).st.messages, m.id ≠ "m1") ∧
    (privateMessage ⟨[], [], [], 1⟩ [] (some 1) ⟨"m1", "hi", 2⟩ "srv-1" 0).ack ≠
      (privateMessage (privateMessage ⟨[], [], [], 1⟩ [] (some 1) ⟨"m1", "hi", 2⟩ "srv-1" 0).st
        [] (some 1) ⟨"m1", "hi", 2⟩ "srv-2" 1).ack := by
  decide

/-- C1 (amended): the persisted Message row is keyed by a fresh
server-generated uuid, not by the caller's correlation id, which the
handler never reads.  Submitting the same payload twice (with distinct
fresh uuids, as `uuidv4` yields) persists two distinct rows and returns two
distinct acknowledgments. -/
theorem C1_server_generated_key (st : ChatDb) (sockets : UserSockets) (fromId : Nat)
    (md : MessageData) (fid1 fid2 : String) (t1 t2 : Nat)
    (h1 : st.messages.any (fun m => m.id == fid1) = false)
    (h2 : st.messages.any (fun m => m.id == fid2) = false)
    (h12 : fid1 ≠ fid2) :
    (privateMessage st sockets (some fromId) md fid1 t1).ack =
      .ok ⟨fid1, fromId, md.toId, md.content, t1⟩ ∧
    (privateMessage (privateMessage st sockets (some fromId) md fid1 t1).st sockets
        (some fromId) md fid2 t2).ack = .ok ⟨fid2, fromId, md.toId, md.content, t2⟩ ∧
    (⟨fid1, fromId, md.toId, md.content, t1⟩ : Message) ≠
      (⟨fid2, fromId, md.toId, md.content, t2⟩ : Message) ∧
    (privateMessage (privateMessage st sockets (some fromId) md fid1 t1).st sockets
        (some fromId) md fid2 t2).st.messages.length = st.messages.length + 2 := by
  have hout1 : (privateMessage st sockets (some fromId) md fid1 t1).st =
      { st with messages := st.messages ++ [⟨fid1, fromId, md.toId, md.content, t1⟩] } := by
    simp [privateMessage, h1]
  have hany2 : (({ st with messages := st.messages ++ [⟨fid1, fromId, md.toId, md.content, t1⟩] } :
      ChatDb).messages.any (fun m => m.id == fid2)) = false := by
    simp [List.any_append, h2, h12]
  refine ⟨by simp [privateMessage, h1], ?_, by simp [h12], ?_⟩
  · rw [hout1]
    simp [privateMessage, hany2]
  · rw [hout1]
    simp [privateMessage, hany2]

/-- C1 (witness): the amended theorem applied on the empty database with
sender 1, payload `{id:"m1", content:"hi", to:2}` and fresh uuids "srv-1",
"srv-2". -/
theorem C1_witness :
    (privateMessage ⟨[], [], [], 1⟩ [] (some 1) ⟨"m1", "hi", 2⟩ "srv-1" 0).ack =
      .ok ⟨"srv-1", 1, 2, "hi", 0⟩ ∧
    (privateMessage (privateMessage ⟨[], [], [], 1⟩ [] (some 1) ⟨"m1", "hi", 2⟩ "srv-1" 0).st
        [] (some 1) ⟨"m1", "hi", 2⟩ "srv-2" 1).ack = .ok ⟨"srv-2", 1, 2, "hi", 1⟩ ∧
    (⟨"srv-1", 1, 2, "hi", 0⟩ : Message) ≠ (⟨"srv-2", 1, 2, "hi", 1⟩ : Message) ∧
    (privateMessage (privateMessage ⟨[], [], [], 1⟩ [] (some 1) ⟨"m1", "hi", 2⟩ "srv-1" 0).st
        [] (some 1) ⟨"m1", "hi", 2⟩ "srv-2" 1).st.messages.length =
      (⟨[], [], [], 1⟩ : ChatDb).messages.length + 2 :=
  C1_server_generated_key ⟨[], [], [], 1⟩ [] 1 ⟨"m1", "hi", 2⟩ "srv-1" "srv-2" 0 1
    (by decide) (by decide) (by decide)

/-- C2: friendship symmetry is an invariant preserved by every server
operation on the chat database — if `(a,b)` is a friends row exactly when
`(b,a)` is, the same holds after any friend-request, accept, reject,
removal or message operation; accepting inserts both directions in one
statement and removal deletes both in one statement. -/
theorem C2_friendship_symmetry_invariant (users : List User) (st st' : ChatDb)
    (hsymm : FriendsSymm st) (hstep : Step users st st') : FriendsSymm st' := by
  cases hstep with
  | requestFriend s e st => exact friendsSymm_of_eq (requestFriend_friends users st s e) hsymm
  | acceptRequest u rid st => exact acceptRequest_preserves_symm st u rid hsymm
  | rejectRequest u rid st => exact friendsSymm_of_eq (rejectRequest_friends st u rid) hsymm
  | removeFriend u f st => exact removeFriendApi_preserves_symm st u f hsymm
  | privateMessage sockets sess md fid now st =>
      exact friendsSymm_of_eq (privateMessage_friends st sockets sess md fid now) hsymm

/-- C2 (witness): the invariant theorem applied to an accept step on a
concrete state with an empty (hence symmetric) friends table. -/
theorem C2_witness :
    FriendsSymm ((acceptRequest ⟨[], [⟨1, 2, 1, "pending"⟩], [], 2⟩ 1 1).2) :=
  C2_friendship_symmetry_invariant [] ⟨[], [⟨1, 2, 1, "pending"⟩], [], 2⟩ _
    (by intro a b; simp) (Step.acceptRequest 1 1 ⟨[], [⟨1, 2, 1, "pending"⟩], [], 2⟩)

/-- C3 (counterexample): the presence registry does not keep multiple
simultaneous connections per user.  User 1 binds connection "c1" and then
"c2" without closing either; the registry then resolves user 1 to exactly
["c2"], and "c1" is no longer reachable. -/
theorem C3_counterexample :
    connectionsFor (bindSocket (bindSocket [] 1 "c1") 1 "c2") 1 = ["c2"] ∧
    "c1" ∉ connectionsFor (bindSocket (bindSocket [] 1 "c1") 1 "c2") 1 := by
  decide

/-- C3 (amended): bind never rejects, but the registry keeps at most one
connection per user — `userSockets[userId] = socket.id` overwrites, so
after binding c1 and then c2 for the same user, only the most recent
connection c2 receives events addressed to that user. -/
theorem C3_second_bind_replaces (m : UserSockets) (u : Nat) (c1 c2 : String) :
    connectionsFor (bindSocket (bindSocket m u c1) u c2) u = [c2] := by
  simp [connectionsFor, bindSocket, socketsGet]

/-- C4 (counterexample): accepting an already-accepted friend request does
not fail with NotFound.  With a single request (id 1, sender 2, receiver 3)
whose status is already "accepted", `acceptRequest 3 1` succeeds. -/
theorem C4_counterexample :
    (acceptRequest ⟨[], [⟨1, 2, 3, "accepted"⟩], [], 2⟩ 3 1).1 = .accepted ∧
    (acceptRequest ⟨[], [⟨1, 2, 3, "accepted"⟩], [], 2⟩ 3 1).1 ≠ .notFound := by
  decide

/-- C4 (amended): acceptRequest fails with NotFound exactly when no friend
request with `id = requestId` and `receiverId = userId` exists; the
request's status is not consulted, so accepting an already-accepted or
rejected request succeeds rather than failing. -/
theorem C4_notFound_iff_missing (st : ChatDb) (userId requestId : Nat) :
    (acceptRequest st userId requestId).1 = .notFound ↔
      st.friend_requests.find?
        (fun r => r.id == requestId && r.receiver_id == userId) = none := by
  rcases hfind : st.friend_requests.find?
      (fun r => r.id == requestId && r.receiver_id == userId) with _ | request
  · simp [acceptRequest, hfind]
  · by_cases hc : friendRowExists st userId request.sender_id <;>
      simp [acceptRequest, hfind, hc]

/-- C5 (counterexample): accepted and rejected are not terminal.  A request
(id 1, sender 2, receiver 3) whose status is already "rejected" is flipped
back to "accepted" by a subsequent acceptRequest — a rejected→accepted
transition the claimed state machine forbids. -/
theorem C5_counterexample :
    ((acceptRequest ⟨[], [⟨1, 2, 3, "rejected"⟩], [], 2⟩ 3 1).2).friend_requests =
      [⟨1, 2, 3, "accepted"⟩] := by
  decide

/-- C5 (amended): the status transitions are unguarded — whenever the
request row addressed by `(requestId, userId)` exists, acceptRequest sets
its status to "accepted" and a non-404 rejectRequest sets every matching
row's status to "rejected", regardless of the current status; so
rejected→accepted and accepted→rejected both occur and no status is
terminal. -/
theorem C5_status_overwritten (st : ChatDb) (userId requestId : Nat) :
    ((st.friend_requests.find?
        (fun r => r.id == requestId && r.receiver_id == userId)).isSome = true →
      ((acceptRequest st userId requestId).2).friend_requests.all
        (fun r' => !(r'.id == requestId) || (r'.status == "accepted")) = true) ∧
    ((rejectRequest st userId requestId).1 = true →
      ((rejectRequest st userId requestId).2).friend_requests.all
        (fun r' => !(r'.id == requestId && r'.receiver_id == userId) ||
          (r'.status == "rejected")) = true) := by
  constructor
  · intro hsome
    rcases hfind : st.friend_requests.find?
        (fun r => r.id == requestId && r.receiver_id == userId) with _ | request
    · rw [hfind] at hsome
      simp at hsome
    · have hreqs : ((acceptRequest st userId requestId).2).friend_requests =
          setRequestStatus st.friend_requests requestId "accepted" := by
        by_cases hc : friendRowExists st userId request.sender_id <;>
          simp [acceptRequest, hfind, hc]
    -- every row in the updated list whose id matches now carries "accepted"
      rw [hreqs, List.all_eq_true]
      intro r' hr'
      by_cases hid : (r'.id == requestId) = true
      · have := setRequestStatus_status hr' (by simpa using hid)
        simp [this]
      · simp [hid]
  · intro hok
    have hnz : (st.friend_requests.countP
        (fun r => r.id == requestId && r.receiver_id == userId)) ≠ 0 := by
      intro hz
      simp [rejectRequest, hz] at hok
    have hreqs : ((rejectRequest st userId requestId).2).friend_requests =
        st.friend_requests.map (fun r =>
          if r.id == requestId && r.receiver_id == userId then
            { r with status := "rejected" }
          else r) := by
      simp [rejectRequest, hnz]
    rw [hreqs, List.all_eq_true]
    intro r' hr'
    rcases List.mem_map.mp hr' with ⟨r0, _, heq⟩
    by_cases hc : (r0.id == requestId && r0.receiver_id == userId) = true
    · rw [if_pos hc] at heq
      rw [← heq]
      simp
    · rw [if_neg hc] at heq
      rw [← heq]
      simp only [Bool.or_eq_true, Bool.not_eq_true']
      left
      simpa using hc

/-- C5 (witness): the amended theorem applied to the rejected request of
the counterexample — the accept flips its status to "accepted". -/
theorem C5_witness :
    ((acceptRequest ⟨[], [⟨1, 2, 3, "rejected"⟩], [], 2⟩ 3 1).2).friend_requests.all
      (fun r' => !(r'.id == 1) || (r'.status == "accepted")) = true :=
  (C5_status_overwritten ⟨[], [⟨1, 2, 3, "rejected"⟩], [], 2⟩ 3 1).1 (by decide)

/-- C6 (counterexample): the already-friends check and the insert of
`POST /api/friend-request` are not one transaction, so an operation
interleaved between them defeats the check.  Start with users A(1), B(2)
and one pending request from B to A.  A's `requestFriend` check on that
state passes (no friendship yet); A's concurrent accept of B's request then
creates the friendship; A's deferred insert step still commits a pending
request — although running `requestFriend` after the accept (as an atomic
operation would) fails with AlreadyFriends.  The result: a pending
FriendRequest coexists with the Friendship the check was meant to rule
out. -/
theorem C6_counterexample :
    requestFriendCheck ⟨[], [⟨1, 2, 1, "pending"⟩], [], 2⟩ 1 2 = false ∧
    (acceptRequest ⟨[], [⟨1, 2, 1, "pending"⟩], [], 2⟩ 1 1).1 = .accepted ∧
    (requestFriend usersAB (acceptRequest ⟨[], [⟨1, 2, 1, "pending"⟩], [], 2⟩ 1 1).2
        1 "b@x.com").1 = .alreadyFriends ∧
    friendRowExists
      ((requestFriendInsert (acceptRequest ⟨[], [⟨1, 2, 1, "pending"⟩], [], 2⟩ 1 1).2 1 2).1)
      1 2 = true ∧
    pendingCount
      ((requestFriendInsert (acceptRequest ⟨[], [⟨1, 2, 1, "pending"⟩], [], 2⟩ 1 1).2 1 2).1)
      1 2 = 1 := by
  decide

/-- C6 (amended): run without interleaving, requestFriend fails with
NotFound when the email resolves to no user, fails with AlreadyFriends when
a friends row for the pair exists at check time, and otherwise inserts one
pending FriendRequest; the check and the insert are however two separate
steps, not a single transaction, so the guarantee does not extend to
concurrent interleavings. -/
theorem C6_sequential_contract (users : List User) (st : ChatDb) (senderId : Nat)
    (email : String) :
    (findUserByEmail users email = none →
      requestFriend users st senderId email = (.notFound, st)) ∧
    (∀ receiver, findUserByEmail users email = some receiver →
      friendRowExists st senderId receiver.id = true →
      requestFriend users st senderId email = (.alreadyFriends, st)) ∧
    (∀ receiver, findUserByEmail users email = some receiver →
      friendRowExists st senderId receiver.id = false →
      requestFriend users st senderId email =
        (.sent st.nextRequestId,
          { st with
              friend_requests := st.friend_requests ++
                [⟨st.nextRequestId, senderId, receiver.id, "pending"⟩],
              nextRequestId := st.nextRequestId + 1 })) := by
  refine ⟨?_, ?_, ?_⟩
  · intro hfind
    simp [requestFriend, hfind]
  · intro receiver hfind hfr
    simp [requestFriend, hfind, requestFriendCheck, hfr]
  · intro receiver hfind hfr
    simp [requestFriend, hfind, requestFriendCheck, hfr, requestFriendInsert]

/-- C6 (witness): the sequential contract applied on an empty database —
user 1 requesting "b@x.com" resolves to user 2 and inserts a pending
request. -/
theorem C6_witness :
    requestFriend usersAB ⟨[], [], [], 1⟩ 1 "b@x.com" =
      (.sent 1, ⟨[], [⟨1, 1, 2, "pending"⟩], [], 2⟩) :=
  (C6_sequential_contract usersAB ⟨[], [], [], 1⟩ 1 "b@x.com").2.2
    ⟨2, "b", "b@x.com"⟩ (by decide) (by decide)

/-- C7 (counterexample): more than one pending FriendRequest row can exist
for the same ordered pair.  On an empty database, user 1 issues
requestFriend to "b@x.com" (user 2) twice; afterwards two rows with
status "pending" exist for the ordered pair (1,2). -/
theorem C7_counterexample :
    pendingCount
      (requestFriend usersAB (requestFriend usersAB ⟨[], [], [], 1⟩ 1 "b@x.com").2
        1 "b@x.com").2 1 2 = 2 := by
  decide

/-- C7 (amended): nothing enforces pending-uniqueness — neither the
friend_requests table (no unique constraint) nor requestFriend, which only
probes the friends table; whenever the email resolves and the pair is not
friends, requestFriend inserts a further pending row for the ordered pair,
incrementing its pending count regardless of how many pending rows already
exist. -/
theorem C7_pending_not_unique (users : List User) (st : ChatDb) (senderId : Nat)
    (email : String) (receiver : User)
    (hfind : findUserByEmail users email = some receiver)
    (hfr : friendRowExists st senderId receiver.id = false) :
    pendingCount (requestFriend users st senderId email).2 senderId receiver.id =
      pendingCount st senderId receiver.id + 1 := by
  simp [requestFriend, hfind, requestFriendCheck, hfr, requestFriendInsert,
    pendingCount, List.countP_append]

/-- C7 (witness): the amended theorem applied to a state that already holds
one pending (1,2) row — after the request there are two. -/
theorem C7_witness :
    pendingCount (requestFriend usersAB ⟨[], [⟨5, 1, 2, "pending"⟩], [], 6⟩ 1 "b@x.com").2 1 2 =
      pendingCount ⟨[], [⟨5, 1, 2, "pending"⟩], [], 6⟩ 1 2 + 1 :=
  C7_pending_not_unique usersAB ⟨[], [⟨5, 1, 2, "pending"⟩], [], 6⟩ 1 "b@x.com"
    ⟨2, "b", "b@x.com"⟩ (by decide) (by decide)

/-- C8: removeFriend deletes both directions of the friendship in one
statement and the endpoint fails with NotFound exactly when zero rows were
affected; after a successful removal neither directed row remains and an
immediately repeated removal fails with NotFound. -/
theorem C8_remove_both_directions (st : ChatDb) (userId friendId : Nat) :
    ((removeFriendApi st userId friendId).1 = .notFound ↔
      (removeFriendRows st userId friendId).2 = 0) ∧
    ((removeFriendApi st userId friendId).1 = .removed →
      friendRowExists (removeFriendApi st userId friendId).2 userId friendId = false ∧
      friendRowExists (removeFriendApi st userId friendId).2 friendId userId = false ∧
      (removeFriendApi (removeFriendApi st userId friendId).2 userId friendId).1 =
        .notFound) := by
  have hfr := removeFriendApi_friends st userId friendId
  by_cases hz :
      (st.friends.countP
        (fun p => (p.fst == userId && p.snd == friendId) ||
          (p.fst == friendId && p.snd == userId))) = 0
  · constructor
    · simp [removeFriendApi, removeFriendRows, hz]
    · intro hrm
      simp [removeFriendApi, removeFriendRows, hz] at hrm
  · have hz2 : (((removeFriendApi st userId friendId).2).friends.countP
        (fun p => (p.fst == userId && p.snd == friendId) ||
          (p.fst == friendId && p.snd == userId))) = 0 := by
      rw [hfr]
      exact countP_filter_self _ _
    constructor
    · simp [removeFriendApi, removeFriendRows, hz]
    · intro _
      refine ⟨?_, ?_, ?_⟩
      · simp only [friendRowExists]
        rw [hfr]
        exact any_filter_of_imp _ _ _
          (fun x hx => by rw [Bool.or_eq_true]; exact Or.inl hx)
      · simp only [friendRowExists]
        rw [hfr]
        exact any_filter_of_imp _ _ _
          (fun x hx => by rw [Bool.or_eq_true]; exact Or.inr hx)
      · exact removeFriendApi_notFound _ _ _ hz2

/-- C8 (witness): with friends rows (1,2) and (2,1), removal succeeds,
leaves neither direction, and a second removal hits NotFound. -/
theorem C8_witness :
    friendRowExists (removeFriendApi ⟨[(1, 2), (2, 1)], [], [], 1⟩ 1 2).2 1 2 = false ∧
    friendRowExists (removeFriendApi ⟨[(1, 2), (2, 1)], [], [], 1⟩ 1 2).2 2 1 = false ∧
    (removeFriendApi (removeFriendApi ⟨[(1, 2), (2, 1)], [], [], 1⟩ 1 2).2 1 2).1 =
      .notFound :=
  (C8_remove_both_directions ⟨[(1, 2), (2, 1)], [], [], 1⟩ 1 2).2 (by decide)

/-- C9: when the message insert fails, the sender is acked with an error,
nothing is published and the store is unchanged; when it succeeds, the
sender is acked with the persisted record — identically whether or not the
receiver has a live connection (an empty registry yields the same ack) —
and the record is subsequently retrievable via the conversation-history
query. -/
theorem C9_persist_then_ack (st : ChatDb) (sockets : UserSockets) (u : Nat)
    (md : MessageData) (freshId : String) (now : Nat) :
    (st.messages.any (fun m => m.id == freshId) = true →
      privateMessage st sockets (some u) md freshId now =
        ⟨.errorSaveFailed, st, none⟩) ∧
    (st.messages.any (fun m => m.id == freshId) = false →
      (privateMessage st sockets (some u) md freshId now).ack =
        .ok ⟨freshId, u, md.toId, md.content, now⟩ ∧
      (privateMessage st [] (some u) md freshId now).ack =
        .ok ⟨freshId, u, md.toId, md.content, now⟩ ∧
      (⟨freshId, u, md.toId, md.content, now⟩ : Message) ∈
        messagesBetween (privateMessage st sockets (some u) md freshId now).st u md.toId) := by
  constructor
  · intro h
    simp [privateMessage, h]
  · intro h
    refine ⟨by simp [privateMessage, h], by simp [privateMessage, h], ?_⟩
    rw [mem_messagesBetween]
    constructor
    · simp [privateMessage, h]
    · simp

/-- C9 (witness): the success half applied on an empty store with the
receiver connected; the ack equals the one computed with no receiver
connection, and the stored row shows up in the history query. -/
theorem C9_witness :
    (privateMessage ⟨[], [], [], 1⟩ [(2, "sB")] (some 1) ⟨"m1", "hi", 2⟩ "srv-1" 0).ack =
      .ok ⟨"srv-1", 1, 2, "hi", 0⟩ ∧
    (privateMessage ⟨[], [], [], 1⟩ [] (some 1) ⟨"m1", "hi", 2⟩ "srv-1" 0).ack =
      .ok ⟨"srv-1", 1, 2, "hi", 0⟩ ∧
    (⟨"srv-1", 1, 2, "hi", 0⟩ : Message) ∈
      messagesBetween
        (privateMessage ⟨[], [], [], 1⟩ [(2, "sB")] (some 1) ⟨"m1", "hi", 2⟩ "srv-1" 0).st 1 2 :=
  (C9_persist_then_ack ⟨[], [], [], 1⟩ [(2, "sB")] 1 ⟨"m1", "hi", 2⟩ "srv-1" 0).2 (by decide)

/-- C10: the send path performs no relationship or existence check on the
target — for any target id whatsoever, an authenticated sender's submission
persists the row and acks success, while a connection without a session
userId is rejected with an error and no state change. -/
theorem C10_no_target_check (st : ChatDb) (sockets : UserSockets) (u target : Nat)
    (cid content freshId : String) (now : Nat) :
    privateMessage st sockets none ⟨cid, content, target⟩ freshId now =
      ⟨.errorNotAuthenticated, st, none⟩ ∧
    (st.messages.any (fun m => m.id == freshId) = false →
      (privateMessage st sockets (some u) ⟨cid, content, target⟩ freshId now).ack =
        .ok ⟨freshId, u, target, content, now⟩ ∧
      (privateMessage st sockets (some u) ⟨cid, content, target⟩ freshId now).st.messages =
        st.messages ++ [⟨freshId, u, target, content, now⟩]) := by
  constructor
  · simp [privateMessage]
  · intro h
    constructor <;> simp [privateMessage, h]

/-- C10 (witness): sending to target id 999 — no such user, no friendship —
still persists and acks success. -/
theorem C10_witness :
    (privateMessage ⟨[], [], [], 1⟩ [] (some 1) ⟨"m1", "hi", 999⟩ "srv-1" 0).ack =
      .ok ⟨"srv-1", 1, 999, "hi", 0⟩ ∧
    (privateMessage ⟨[], [], [], 1⟩ [] (some 1) ⟨"m1", "hi", 999⟩ "srv-1" 0).st.messages =
      [⟨"srv-1", 1, 999, "hi", 0⟩] :=
  (C10_no_target_check ⟨[], [], [], 1⟩ [] 1 999 "m1" "hi" "srv-1" 0).2 (by decide)

end ChatWeb
